import Mathlib

/-!
Verification of the concurrent workload generator and metrics-aggregation
engine of the voting-platform load-testing harness
(`scripts/experimento-rapido.py`, "fast harness", and
`scripts/experimento-rendimiento.py`, "standard harness").

Floats are modelled as rationals (ℚ), Python ints as Nat, Python lists as
Lean lists.  Exceptions that can escape a function are modelled with
`Except String`.  The real thread interleaving only affects the order in
which latencies and error strings are appended to the shared record; the
embedding applies the workers' contributions in thread-start order
(a canonical serialization) and keeps each worker's per-iteration effect
as an explicit step function on the record.
-/

/-- The `(consultas_concurrentes, votos_por_minuto, duracion_minutos)`
configuration triple consumed by `ejecutar_experimento` in both harnesses. -/
structure Configuracion where
  consultas_concurrentes : Nat
  votos_por_minuto : Nat
  duracion_minutos : Nat
deriving Repr, DecidableEq

/-- The `metricas` dictionary of one experiment run.  Keys that the Python
code only creates during finalization (`latencia_promedio`, `latencia_p95`,
`latencia_max`, `duracion_real`, `throughput`, `tasa_error`) are `Option`
fields, `none` meaning the key is absent from the dict. -/
structure Metricas where
  configuracion : Configuracion
  latencias : List ℚ
  votos_procesados : Nat
  votos_fallidos : Nat
  uso_cpu_promedio : ℚ
  uso_memoria_promedio : ℚ
  errores : List String
  latencia_promedio : Option ℚ
  latencia_p95 : Option ℚ
  latencia_max : Option ℚ
  duracion_real : Option ℚ
  throughput : Option ℚ
  tasa_error : Option ℚ
deriving Repr, DecidableEq

/-- The initial `metricas` dictionary built at the top of
`ejecutar_experimento` (identical in both harnesses): empty collections,
zero counters, and no derived keys yet. -/
def metricas_iniciales (c : Configuracion) : Metricas :=
  { configuracion := c
    latencias := []
    votos_procesados := 0
    votos_fallidos := 0
    uso_cpu_promedio := 0
    uso_memoria_promedio := 0
    errores := []
    latencia_promedio := none
    latencia_p95 := none
    latencia_max := none
    duracion_real := none
    throughput := none
    tasa_error := none }

/-- `statistics.mean` on a list of floats.  Python raises on an empty list;
every call site in the two scripts guards non-emptiness first, so the
total ℚ version is only ever applied to non-empty lists here. -/
def statistics_mean (l : List ℚ) : ℚ :=
  l.foldl (· + ·) 0 / (l.length : ℚ)

/-- CPython `statistics.quantiles(data, n)` with the default `exclusive`
method: sort the data, require at least two data points
(`StatisticsError` otherwise), and for `i = 1 .. n-1` interpolate between
the neighbours of position `i*(ld+1)/n`, clamped to `1 .. ld-1`, with the
exact integer `delta = i*(ld+1) - j*n`.  The standard harness calls this
with `n = 20` and reads index 18 (P95). -/
def statistics_quantiles (data : List ℚ) (n : Nat) : Except String (List ℚ) :=
  let d := List.insertionSort (fun a b => a ≤ b) data
  let ld := d.length
  if ld < 2 then .error "StatisticsError: must have at least two data points"
  else .ok ((List.range (n - 1)).map (fun k =>
    let i := k + 1
    let j0 := i * (ld + 1) / n
    let j := if j0 < 1 then 1 else if ld - 1 < j0 then ld - 1 else j0
    let delta : Int := (i * (ld + 1) : Int) - (j * n : Int)
    (d.getD (j - 1) 0 * ((n : ℚ) - (delta : ℚ)) + d.getD j 0 * (delta : ℚ)) / (n : ℚ)))

/-- One iteration's outcome of a query worker (`simular_consultas`): either a
measured latency in ms, or a raised exception message. -/
inductive ResultadoConsulta where
  | ok (latencia : ℚ)
  | excepcion (mensaje : String)
deriving Repr, DecidableEq

/-- Effect of one `simular_consultas` loop iteration on the shared record:
append the measured latency, or log the exception and continue
(both harnesses; the standard harness ignores the endpoints' status, so a
latency is appended on every non-raising iteration). -/
def simular_consultas_paso (m : Metricas) (r : ResultadoConsulta) : Metricas :=
  match r with
  | .ok lat => { m with latencias := m.latencias ++ [lat] }
  | .excepcion e => { m with errores := m.errores ++ ["Error en consulta: " ++ e] }

/-- One query worker's whole run: its iteration outcomes applied in order. -/
def simular_consultas (m : Metricas) (rs : List ResultadoConsulta) : Metricas :=
  rs.foldl simular_consultas_paso m

/-- One iteration's outcome of the vote worker (`simular_votos`): a vote
classified as success (with its measured latency), a vote classified as
failure (its latency is measured but discarded), or a raised exception. -/
inductive ResultadoVoto where
  | exito (latencia : ℚ)
  | fallo (latencia : ℚ)
  | excepcion (mensaje : String)
deriving Repr, DecidableEq

def ResultadoVoto.es_exito : ResultadoVoto → Bool
  | .exito _ => true
  | _ => false

def ResultadoVoto.es_excepcion : ResultadoVoto → Bool
  | .excepcion _ => true
  | _ => false

def ResultadoVoto.latencia_medida : ResultadoVoto → ℚ
  | .exito l => l
  | .fallo l => l
  | .excepcion _ => 0

/-- Effect of one `simular_votos` loop iteration on the shared record
(both harnesses): on success increment `votos_procesados` and append the
latency; on a classified failure increment `votos_fallidos` only; on a
raised exception increment `votos_fallidos` and log the error. -/
def simular_votos_paso (m : Metricas) (r : ResultadoVoto) : Metricas :=
  match r with
  | .exito lat =>
    { m with votos_procesados := m.votos_procesados + 1
             latencias := m.latencias ++ [lat] }
  | .fallo _ => { m with votos_fallidos := m.votos_fallidos + 1 }
  | .excepcion e =>
    { m with votos_fallidos := m.votos_fallidos + 1
             errores := m.errores ++ ["Error en voto: " ++ e] }

/-- The pacing sleeps executed by one `simular_votos` iteration:
`time.sleep(intervalo_votos)` runs at the end of the `try` block, so it is
executed exactly on the non-raising iterations (the attempt-simulation
delay at the start of the iteration is part of the attempt itself, not of
the pacing). -/
def simular_votos_paso_pausas (intervalo : ℚ) (r : ResultadoVoto) : List ℚ :=
  match r with
  | .excepcion _ => []
  | _ => [intervalo]

/-- The vote worker's whole run: its iteration outcomes applied in order. -/
def simular_votos (m : Metricas) (rs : List ResultadoVoto) : Metricas :=
  rs.foldl simular_votos_paso m

/-- `intervalo_votos = 60.0 / votos_por_minuto`, computed by
`ejecutar_experimento` before starting the vote worker. -/
def intervalo_votos (c : Configuracion) : ℚ :=
  60 / (c.votos_por_minuto : ℚ)

/-- One tick of the resource monitor: a (cpu, memoryMB) sample, or a raised
sampling exception. -/
inductive Muestra where
  | ok (cpu memoria : ℚ)
  | excepcion (mensaje : String)
deriving Repr, DecidableEq

/-- The monitor's local `muestras_cpu` list: the cpu values of the
successful ticks. -/
def muestras_cpu (ms : List Muestra) : List ℚ :=
  ms.filterMap (fun s => match s with | .ok c _ => some c | .excepcion _ => none)

/-- The monitor's local `muestras_memoria` list: the memory values of the
successful ticks. -/
def muestras_memoria (ms : List Muestra) : List ℚ :=
  ms.filterMap (fun s => match s with | .ok _ mm => some mm | .excepcion _ => none)

/-- The error strings the monitor appends to the shared record, one per
failed tick. -/
def errores_monitoreo (ms : List Muestra) : List String :=
  ms.filterMap (fun s =>
    match s with
    | .excepcion e => some ("Error en monitoreo: " ++ e)
    | .ok _ _ => none)

/-- `monitorear_recursos` (identical in both harnesses): samples accumulate
in the two local lists; failed ticks append to the record's `errores`; on
exit the record's `uso_cpu_promedio` / `uso_memoria_promedio` are set to
the mean of each local list if it is non-empty (otherwise the initial 0 is
left in place).  The sample lists themselves are local variables and are
not stored on the record. -/
def monitorear_recursos (m : Metricas) (ms : List Muestra) : Metricas :=
  let m1 := { m with errores := m.errores ++ errores_monitoreo ms }
  let m2 :=
    if muestras_cpu ms = [] then m1
    else { m1 with uso_cpu_promedio := statistics_mean (muestras_cpu ms) }
  if muestras_memoria ms = [] then m2
  else { m2 with uso_memoria_promedio := statistics_mean (muestras_memoria ms) }

/-- Tail of the fast harness's finalization (lines 112-115 of
`experimento-rapido.py`): record the measured wall time, compute throughput
guarded by `duracion_real > 0`, and compute the error rate guarded by
`total_operaciones > 0`. -/
def finalizar_resto_rapido (m : Metricas) (d : ℚ) : Metricas :=
  { m with
    duracion_real := some d
    throughput := some (if 0 < d then (m.votos_procesados : ℚ) / (d / 60) else 0)
    tasa_error := some (if 0 < m.votos_procesados + m.votos_fallidos then
        ((m.votos_fallidos : ℚ) / ((m.votos_procesados + m.votos_fallidos : Nat) : ℚ)) * 100
      else 0) }

/-- Tail of the standard harness's finalization (lines 112-114 of
`experimento-rendimiento.py`): the throughput division
`votos_procesados / (duracion_real / 60)` is NOT guarded, so a zero
measured duration raises `ZeroDivisionError`; the error rate is guarded as
in the fast harness. -/
def finalizar_resto_rendimiento (m : Metricas) (d : ℚ) : Except String Metricas :=
  if d = 0 then .error "ZeroDivisionError: float division by zero"
  else .ok { m with
    duracion_real := some d
    throughput := some ((m.votos_procesados : ℚ) / (d / 60))
    tasa_error := some (if 0 < m.votos_procesados + m.votos_fallidos then
        ((m.votos_fallidos : ℚ) / ((m.votos_procesados + m.votos_fallidos : Nat) : ℚ)) * 100
      else 0) }

/-- Fast-harness finalization (lines 103-115 of `experimento-rapido.py`).
Non-empty latencies: mean, `sorted(latencias)[int(len(latencias) * 0.95)]`
and max; since the index is a Nat and `0.95` in binary64 only exceeds
19/20 by about 1e-17, `int(n * 0.95)` equals `19 * n / 20` in Nat
(floor) division for every feasible list length.  Empty latencies: the
`else` branch sets all three derived latency keys to 0.  Python list
indexing raises `IndexError` out of range, hence the `Option` match. -/
def calcular_metricas_finales_rapido (m : Metricas) (d : ℚ) : Except String Metricas :=
  match m.latencias with
  | [] =>
    .ok (finalizar_resto_rapido
      { m with latencia_promedio := some 0, latencia_p95 := some 0, latencia_max := some 0 } d)
  | x :: xs =>
    match (List.insertionSort (fun a b => a ≤ b) (x :: xs)).get?
        (19 * (x :: xs).length / 20) with
    | none => .error "IndexError: list index out of range"
    | some p95 =>
      .ok (finalizar_resto_rapido
        { m with latencia_promedio := some (statistics_mean (x :: xs))
                 latencia_p95 := some p95
                 latencia_max := some (xs.foldl max x) } d)

/-- Standard-harness finalization (lines 107-114 of
`experimento-rendimiento.py`).  Non-empty latencies: mean,
`statistics.quantiles(latencias, n=20)[18]` and max; NOTE there is no
`else` branch, so with empty latencies the three derived latency keys
are simply never created. -/
def calcular_metricas_finales_rendimiento (m : Metricas) (d : ℚ) : Except String Metricas :=
  match m.latencias with
  | [] => finalizar_resto_rendimiento m d
  | x :: xs =>
    match statistics_quantiles (x :: xs) 20 with
    | .error e => .error e
    | .ok qs =>
      match qs.get? 18 with
      | none => .error "IndexError: list index out of range"
      | some p95 =>
        finalizar_resto_rendimiento
          { m with latencia_promedio := some (statistics_mean (x :: xs))
                   latencia_p95 := some p95
                   latencia_max := some (xs.foldl max x) } d

/-- The observable events of one `ejecutar_experimento` invocation, in
program order: thread starts, the join barrier, and finalization. -/
inductive Evento where
  | inicia_monitoreo
  | inicia_consulta (i : Nat)
  | inicia_votos
  | espera_hilos
  | calcula_metricas
deriving Repr, DecidableEq

/-- Event trace of `ejecutar_experimento` (identical orchestration in both
harnesses): the monitor thread is started first, then the
`consultas_concurrentes` query threads; only then is
`intervalo_votos = 60.0 / votos_por_minuto` computed, which raises
`ZeroDivisionError` when `votos_por_minuto` is 0 — after those threads are
already running.  No configuration validation is performed anywhere. -/
def ejecutar_experimento_eventos (c : Configuracion) : List Evento × Option String :=
  let previos := Evento.inicia_monitoreo ::
    (List.range c.consultas_concurrentes).map Evento.inicia_consulta
  if c.votos_por_minuto = 0 then
    (previos, some "ZeroDivisionError: float division by zero")
  else
    (previos ++ [Evento.inicia_votos, Evento.espera_hilos, Evento.calcula_metricas], none)

/-- The nondeterministic inputs of one run: each query worker's iteration
outcomes, the vote worker's iteration outcomes, the monitor's tick
outcomes, and the measured wall time `time.time() - inicio`. -/
structure Entorno where
  consultas : Nat → List ResultadoConsulta
  votos : List ResultadoVoto
  muestras : List Muestra
  duracion_real : ℚ

/-- The query workers' combined contribution to the shared record. -/
def aplicar_consultas (m : Metricas) (n : Nat) (f : Nat → List ResultadoConsulta) : Metricas :=
  (List.range n).foldl (fun m i => simular_consultas m (f i)) m

/-- `ejecutar_experimento` of the fast harness as a record transformer: the
workers' contributions are applied in thread-start order and finalization
runs after the join barrier.  The `votos_por_minuto = 0` division error
(whose position in the event order is captured by
`ejecutar_experimento_eventos`) aborts the run with no record. -/
def ejecutar_experimento_rapido (c : Configuracion) (env : Entorno) :
    Except String Metricas :=
  if c.votos_por_minuto = 0 then .error "ZeroDivisionError: float division by zero"
  else
    let m := metricas_iniciales c
    let m := aplicar_consultas m c.consultas_concurrentes env.consultas
    let m := simular_votos m env.votos
    let m := monitorear_recursos m env.muestras
    calcular_metricas_finales_rapido m env.duracion_real

/-- `ejecutar_experimento` of the standard harness: same orchestration,
standard finalization. -/
def ejecutar_experimento_rendimiento (c : Configuracion) (env : Entorno) :
    Except String Metricas :=
  if c.votos_por_minuto = 0 then .error "ZeroDivisionError: float division by zero"
  else
    let m := metricas_iniciales c
    let m := aplicar_consultas m c.consultas_concurrentes env.consultas
    let m := simular_votos m env.votos
    let m := monitorear_recursos m env.muestras
    calcular_metricas_finales_rendimiento m env.duracion_real

/-- The observable events of `iniciar_experimentos`: one run per
configuration and the cooldown sleeps. -/
inductive EventoSuite where
  | ejecutar (c : Configuracion)
  | espera (segundos : Nat)
deriving Repr, DecidableEq

def EventoSuite.es_espera : EventoSuite → Bool
  | .espera _ => true
  | .ejecutar _ => false

def EventoSuite.configuracion_de : EventoSuite → Option Configuracion
  | .ejecutar c => some c
  | .espera _ => none

/-- Event trace of `iniciar_experimentos` (both harnesses; the fast harness
sleeps 10 s, the standard one 30 s): the loop body runs one experiment and
then unconditionally sleeps, also on the last iteration. -/
def iniciar_experimentos_eventos (espera_segundos : Nat)
    (configuraciones : List Configuracion) : List EventoSuite :=
  configuraciones.foldl
    (fun traza c => traza ++ [EventoSuite.ejecutar c, EventoSuite.espera espera_segundos]) []

/-- `iniciar_experimentos` of the fast harness as a result producer: run
each configuration in order, appending each finalized record to
`self.resultados`; an exception escaping a run aborts the whole suite.
`env i` supplies the nondeterministic inputs of the i-th run. -/
def iniciar_experimentos_rapido :
    List Configuracion → (Nat → Entorno) → Except String (List Metricas)
  | [], _ => .ok []
  | c :: cs, env =>
    match ejecutar_experimento_rapido c (env 0) with
    | .error e => .error e
    | .ok r =>
      match iniciar_experimentos_rapido cs (fun i => env (i + 1)) with
      | .error e => .error e
      | .ok rs => .ok (r :: rs)

/-- `iniciar_experimentos` of the standard harness. -/
def iniciar_experimentos_rendimiento :
    List Configuracion → (Nat → Entorno) → Except String (List Metricas)
  | [], _ => .ok []
  | c :: cs, env =>
    match ejecutar_experimento_rendimiento c (env 0) with
    | .error e => .error e
    | .ok r =>
      match iniciar_experimentos_rendimiento cs (fun i => env (i + 1)) with
      | .error e => .error e
      | .ok rs => .ok (r :: rs)

/-- Follows the spec's words (§4.4/§8): `errorRatePercent` "equals
`votesFailed / (votesProcessed + votesFailed) * 100` whenever the
denominator is nonzero, else 0", stated for comparison with the records
the code produces. -/
def tasa_error_segun_spec (procesados fallidos : Nat) : ℚ :=
  if procesados + fallidos ≠ 0 then
    ((fallidos : ℚ) / ((procesados : ℚ) + (fallidos : ℚ))) * 100
  else 0

/-- Concrete record used as witness input: two processed votes, one failed
vote, no latencies yet. -/
def metricas_testigo : Metricas :=
  { metricas_iniciales ⟨5, 50, 1⟩ with votos_procesados := 2, votos_fallidos := 1 }

/-- Concrete record used as witness input: three accumulated latencies. -/
def metricas_latencias_testigo : Metricas :=
  { metricas_iniciales ⟨5, 50, 1⟩ with latencias := [3, 1, 2] }

/-- Concrete run environment used as witness input: no query traffic, two
successful votes, no monitor ticks, 60 s measured duration. -/
def entorno_testigo : Entorno :=
  { consultas := fun _ => []
    votos := [ResultadoVoto.exito 25, ResultadoVoto.exito 40]
    muestras := []
    duracion_real := 60 }

/-! ### Helper lemmas -/

theorem simular_consultas_paso_basicos (m : Metricas) (r : ResultadoConsulta) :
    (simular_consultas_paso m r).configuracion = m.configuracion ∧
    (simular_consultas_paso m r).votos_procesados = m.votos_procesados ∧
    (simular_consultas_paso m r).votos_fallidos = m.votos_fallidos := by
  cases r <;> exact ⟨rfl, rfl, rfl⟩

theorem simular_consultas_basicos (rs : List ResultadoConsulta) (m : Metricas) :
    (simular_consultas m rs).configuracion = m.configuracion ∧
    (simular_consultas m rs).votos_procesados = m.votos_procesados ∧
    (simular_consultas m rs).votos_fallidos = m.votos_fallidos := by
  induction rs generalizing m with
  | nil => exact ⟨rfl, rfl, rfl⟩
  | cons r rs ih =>
    have h1 := simular_consultas_paso_basicos m r
    have h2 := ih (simular_consultas_paso m r)
    simp only [simular_consultas, List.foldl_cons] at h2 ⊢
    exact ⟨h2.1.trans h1.1, h2.2.1.trans h1.2.1, h2.2.2.trans h1.2.2⟩

theorem aplicar_consultas_basicos (is : List Nat) (m : Metricas)
    (f : Nat → List ResultadoConsulta) :
    ((is.foldl (fun m i => simular_consultas m (f i)) m)).configuracion = m.configuracion ∧
    ((is.foldl (fun m i => simular_consultas m (f i)) m)).votos_procesados = m.votos_procesados ∧
    ((is.foldl (fun m i => simular_consultas m (f i)) m)).votos_fallidos = m.votos_fallidos := by
  induction is generalizing m with
  | nil => exact ⟨rfl, rfl, rfl⟩
  | cons i is ih =>
    have h1 := simular_consultas_basicos (f i) m
    have h2 := ih (simular_consultas m (f i))
    simp only [List.foldl_cons] at h2 ⊢
    exact ⟨h2.1.trans h1.1, h2.2.1.trans h1.2.1, h2.2.2.trans h1.2.2⟩

theorem simular_votos_configuracion (rs : List ResultadoVoto) (m : Metricas) :
    (simular_votos m rs).configuracion = m.configuracion := by
  induction rs generalizing m with
  | nil => rfl
  | cons r rs ih =>
    have h1 : (simular_votos_paso m r).configuracion = m.configuracion := by
      cases r <;> rfl
    simp only [simular_votos, List.foldl_cons] at ih ⊢
    exact (ih (simular_votos_paso m r)).trans h1

theorem monitorear_recursos_campos (m : Metricas) (ms : List Muestra) :
    (monitorear_recursos m ms).configuracion = m.configuracion ∧
    (monitorear_recursos m ms).latencias = m.latencias ∧
    (monitorear_recursos m ms).votos_procesados = m.votos_procesados ∧
    (monitorear_recursos m ms).votos_fallidos = m.votos_fallidos ∧
    (monitorear_recursos m ms).errores = m.errores ++ errores_monitoreo ms ∧
    (monitorear_recursos m ms).uso_cpu_promedio =
      (if muestras_cpu ms = [] then m.uso_cpu_promedio
       else statistics_mean (muestras_cpu ms)) ∧
    (monitorear_recursos m ms).uso_memoria_promedio =
      (if muestras_memoria ms = [] then m.uso_memoria_promedio
       else statistics_mean (muestras_memoria ms)) := by
  unfold monitorear_recursos
  by_cases h1 : muestras_cpu ms = [] <;> by_cases h2 : muestras_memoria ms = [] <;>
    simp [h1, h2]

/-- Characterization of the fast-harness finalization: it is total, keeps
the configuration and counters, and computes the derived fields as the
source does. -/
theorem calcular_rapido_ok (m : Metricas) (d : ℚ) :
    ∃ r, calcular_metricas_finales_rapido m d = .ok r ∧
      r.configuracion = m.configuracion ∧
      r.votos_procesados = m.votos_procesados ∧
      r.votos_fallidos = m.votos_fallidos ∧
      r.throughput = some (if 0 < d then (m.votos_procesados : ℚ) / (d / 60) else 0) ∧
      r.tasa_error = some (if 0 < m.votos_procesados + m.votos_fallidos then
          ((m.votos_fallidos : ℚ) / ((m.votos_procesados + m.votos_fallidos : Nat) : ℚ)) * 100
        else 0) ∧
      (m.latencias = [] →
        r.latencia_promedio = some 0 ∧ r.latencia_p95 = some 0 ∧ r.latencia_max = some 0) ∧
      (m.latencias ≠ [] →
        r.latencia_p95 = (List.insertionSort (fun a b => a ≤ b) m.latencias).get?
          (19 * m.latencias.length / 20)) := by
  obtain ⟨cfg, lats, vp, vf, cpu, mem, errs, lp, l95, lmax, dr, th, te⟩ := m
  cases lats with
  | nil =>
    exact ⟨_, rfl, by simp [finalizar_resto_rapido]⟩
  | cons x xs =>
    have hidx : 19 * (x :: xs).length / 20 < (x :: xs).length := by
      rw [Nat.div_lt_iff_lt_mul (by norm_num)]
      simp only [List.length_cons]
      omega
    have hlen := List.length_insertionSort (fun a b : ℚ => a ≤ b) (x :: xs)
    have hsome : (List.insertionSort (fun a b : ℚ => a ≤ b) (x :: xs)).get?
        (19 * (x :: xs).length / 20) ≠ none := by
      intro hno
      rw [List.get?_eq_none] at hno
      omega
    obtain ⟨p95, hp95⟩ := Option.ne_none_iff_exists'.mp hsome
    cases hres : calcular_metricas_finales_rapido
        { configuracion := cfg, latencias := x :: xs, votos_procesados := vp,
          votos_fallidos := vf, uso_cpu_promedio := cpu, uso_memoria_promedio := mem,
          errores := errs, latencia_promedio := lp, latencia_p95 := l95,
          latencia_max := lmax, duracion_real := dr, throughput := th,
          tasa_error := te } d with
    | error e =>
      exfalso
      simp only [calcular_metricas_finales_rapido] at hres
      rw [hp95] at hres
      exact Except.noConfusion hres
    | ok r =>
      refine ⟨r, rfl, ?_⟩
      simp only [calcular_metricas_finales_rapido] at hres
      rw [hp95] at hres
      injection hres with hres
      subst hres
      refine ⟨rfl, rfl, rfl, rfl, rfl, ?_, ?_⟩
      · intro h
        exact absurd h (by simp)
      · intro _
        exact hp95.symm

/-- `statistics.quantiles` succeeds exactly on lists of at least two
elements, and with `n = 20` produces 19 cut points. -/
theorem statistics_quantiles_ok (data : List ℚ) (h : 2 ≤ data.length) :
    ∃ qs, statistics_quantiles data 20 = .ok qs ∧ qs.length = 19 := by
  have hne : ¬ ((List.insertionSort (fun a b : ℚ => a ≤ b) data).length < 2) := by
    rw [List.length_insertionSort]
    omega
  cases hres : statistics_quantiles data 20 with
  | error e =>
    exfalso
    simp only [statistics_quantiles] at hres
    rw [if_neg hne] at hres
    exact Except.noConfusion hres
  | ok qs =>
    refine ⟨qs, rfl, ?_⟩
    simp only [statistics_quantiles] at hres
    rw [if_neg hne] at hres
    injection hres with hres
    subst hres
    simp

/-- Characterization of the standard-harness finalization on inputs where
it does not raise: nonzero measured duration and a latency count other
than one. -/
theorem calcular_rendimiento_ok (m : Metricas) (d : ℚ) (hd : d ≠ 0)
    (hl : m.latencias.length ≠ 1) :
    ∃ r, calcular_metricas_finales_rendimiento m d = .ok r ∧
      r.configuracion = m.configuracion ∧
      r.votos_procesados = m.votos_procesados ∧
      r.votos_fallidos = m.votos_fallidos ∧
      r.throughput = some ((m.votos_procesados : ℚ) / (d / 60)) ∧
      r.tasa_error = some (if 0 < m.votos_procesados + m.votos_fallidos then
          ((m.votos_fallidos : ℚ) / ((m.votos_procesados + m.votos_fallidos : Nat) : ℚ)) * 100
        else 0) ∧
      (m.latencias = [] →
        r.latencia_promedio = m.latencia_promedio ∧
        r.latencia_p95 = m.latencia_p95 ∧
        r.latencia_max = m.latencia_max) := by
  obtain ⟨cfg, lats, vp, vf, cpu, mem, errs, lp, l95, lmax, dr, th, te⟩ := m
  cases lats with
  | nil =>
    cases hres : calcular_metricas_finales_rendimiento
        { configuracion := cfg, latencias := [], votos_procesados := vp,
          votos_fallidos := vf, uso_cpu_promedio := cpu, uso_memoria_promedio := mem,
          errores := errs, latencia_promedio := lp, latencia_p95 := l95,
          latencia_max := lmax, duracion_real := dr, throughput := th,
          tasa_error := te } d with
    | error e =>
      exfalso
      simp only [calcular_metricas_finales_rendimiento, finalizar_resto_rendimiento] at hres
      rw [if_neg hd] at hres
      exact Except.noConfusion hres
    | ok r =>
      refine ⟨r, rfl, ?_⟩
      simp only [calcular_metricas_finales_rendimiento, finalizar_resto_rendimiento] at hres
      rw [if_neg hd] at hres
      injection hres with hres
      subst hres
      exact ⟨rfl, rfl, rfl, rfl, rfl, fun _ => ⟨rfl, rfl, rfl⟩⟩
  | cons x xs =>
    have h2 : 2 ≤ (x :: xs).length := by
      simp only [List.length_cons] at hl ⊢
      omega
    obtain ⟨qs, hqs, hqslen⟩ := statistics_quantiles_ok (x :: xs) h2
    have hsome : qs.get? 18 ≠ none := by
      intro hno
      rw [List.get?_eq_none] at hno
      omega
    obtain ⟨p95, hp95⟩ := Option.ne_none_iff_exists'.mp hsome
    cases hres : calcular_metricas_finales_rendimiento
        { configuracion := cfg, latencias := x :: xs, votos_procesados := vp,
          votos_fallidos := vf, uso_cpu_promedio := cpu, uso_memoria_promedio := mem,
          errores := errs, latencia_promedio := lp, latencia_p95 := l95,
          latencia_max := lmax, duracion_real := dr, throughput := th,
          tasa_error := te } d with
    | error e =>
      exfalso
      simp only [calcular_metricas_finales_rendimiento] at hres
      rw [hqs] at hres
      simp only [] at hres
      rw [hp95] at hres
      simp only [finalizar_resto_rendimiento] at hres
      rw [if_neg hd] at hres
      exact Except.noConfusion hres
    | ok r =>
      refine ⟨r, rfl, ?_⟩
      simp only [calcular_metricas_finales_rendimiento] at hres
      rw [hqs] at hres
      simp only [] at hres
      rw [hp95] at hres
      simp only [finalizar_resto_rendimiento] at hres
      rw [if_neg hd] at hres
      injection hres with hres
      subst hres
      refine ⟨rfl, rfl, rfl, rfl, rfl, ?_⟩
      intro h
      exact absurd h (by simp)

theorem calcular_rendimiento_configuracion (m : Metricas) (d : ℚ) (r : Metricas)
    (h : calcular_metricas_finales_rendimiento m d = .ok r) :
    r.configuracion = m.configuracion := by
  obtain ⟨cfg, lats, vp, vf, cpu, mem, errs, lp, l95, lmax, dr, th, te⟩ := m
  cases lats with
  | nil =>
    simp only [calcular_metricas_finales_rendimiento, finalizar_resto_rendimiento] at h
    split at h
    · exact Except.noConfusion h
    · injection h with h
      subst h
      rfl
  | cons x xs =>
    simp only [calcular_metricas_finales_rendimiento] at h
    split at h
    · exact Except.noConfusion h
    · split at h
      · exact Except.noConfusion h
      · simp only [finalizar_resto_rendimiento] at h
        split at h
        · exact Except.noConfusion h
        · injection h with h
          subst h
          rfl

theorem aplicar_consultas_configuracion (m : Metricas) (n : Nat)
    (f : Nat → List ResultadoConsulta) :
    (aplicar_consultas m n f).configuracion = m.configuracion :=
  (aplicar_consultas_basicos (List.range n) m f).1

/-- The fast-harness runner succeeds whenever `votos_por_minuto` is nonzero,
and the record it returns carries the configuration it was given. -/
theorem ejecutar_rapido_ok (c : Configuracion) (env : Entorno)
    (hv : c.votos_por_minuto ≠ 0) :
    ∃ r, ejecutar_experimento_rapido c env = .ok r ∧ r.configuracion = c := by
  obtain ⟨r, hr, hcfg, -⟩ := calcular_rapido_ok
    (monitorear_recursos
      (simular_votos
        (aplicar_consultas (metricas_iniciales c) c.consultas_concurrentes env.consultas)
        env.votos)
      env.muestras)
    env.duracion_real
  refine ⟨r, ?_, ?_⟩
  · rw [ejecutar_experimento_rapido, if_neg hv]
    exact hr
  · rw [hcfg, (monitorear_recursos_campos _ _).1, simular_votos_configuracion,
      aplicar_consultas_configuracion]
    rfl

/-- Whatever record the standard-harness runner returns carries the
configuration it was given. -/
theorem ejecutar_rendimiento_configuracion (c : Configuracion) (env : Entorno)
    (r : Metricas) (h : ejecutar_experimento_rendimiento c env = .ok r) :
    r.configuracion = c := by
  by_cases hv : c.votos_por_minuto = 0
  · rw [ejecutar_experimento_rendimiento, if_pos hv] at h
    exact Except.noConfusion h
  · rw [ejecutar_experimento_rendimiento, if_neg hv] at h
    have := calcular_rendimiento_configuracion _ _ _ h
    rw [this, (monitorear_recursos_campos _ _).1, simular_votos_configuracion,
      aplicar_consultas_configuracion]
    rfl

theorem iniciar_experimentos_eventos_flatMap (k : Nat) (cs : List Configuracion)
    (acc : List EventoSuite) :
    cs.foldl (fun traza c => traza ++ [EventoSuite.ejecutar c, EventoSuite.espera k]) acc =
      acc ++ cs.flatMap (fun c => [EventoSuite.ejecutar c, EventoSuite.espera k]) := by
  induction cs generalizing acc with
  | nil => simp
  | cons c cs ih =>
    simp only [List.foldl_cons, List.flatMap_cons, ih]
    simp [List.append_assoc]

theorem eventos_espera_cuenta (k : Nat) (cs : List Configuracion) :
    (cs.flatMap (fun c => [EventoSuite.ejecutar c, EventoSuite.espera k])).countP
      EventoSuite.es_espera = cs.length := by
  induction cs with
  | nil => rfl
  | cons c cs ih =>
    simp [List.flatMap_cons, List.countP_append, List.countP_cons, EventoSuite.es_espera, ih]

theorem eventos_ejecuciones (k : Nat) (cs : List Configuracion) :
    (cs.flatMap (fun c => [EventoSuite.ejecutar c, EventoSuite.espera k])).filterMap
      EventoSuite.configuracion_de = cs := by
  induction cs with
  | nil => rfl
  | cons c cs ih =>
    simp [List.flatMap_cons, List.filterMap_append, List.filterMap_cons,
      EventoSuite.configuracion_de, ih]

theorem iniciar_rapido_configs (cs : List Configuracion) (env : Nat → Entorno)
    (h1 : ∀ c ∈ cs, c.votos_por_minuto ≠ 0) :
    (iniciar_experimentos_rapido cs env).map (fun l => l.map (fun r => r.configuracion)) =
      .ok cs := by
  induction cs generalizing env with
  | nil => rfl
  | cons c cs ih =>
    obtain ⟨r, hr, hcfg⟩ := ejecutar_rapido_ok c (env 0) (h1 c (List.mem_cons_self c cs))
    have hrest := ih (fun i => env (i + 1)) (fun c' hc' => h1 c' (List.mem_cons_of_mem _ hc'))
    cases hrest2 : iniciar_experimentos_rapido cs (fun i => env (i + 1)) with
    | error e =>
      rw [hrest2] at hrest
      exact absurd hrest (by simp [Except.map])
    | ok rs =>
      rw [hrest2] at hrest
      simp only [Except.map] at hrest
      injection hrest with hrest
      simp only [iniciar_experimentos_rapido]
      rw [hr]
      simp only []
      rw [hrest2]
      simp only [Except.map, List.map_cons]
      rw [hrest, hcfg]

theorem iniciar_rendimiento_configs (cs : List Configuracion) (env : Nat → Entorno)
    (h2 : ∀ i, i < cs.length →
      (ejecutar_experimento_rendimiento (cs.getD i ⟨0, 0, 0⟩) (env i)).isOk = true) :
    (iniciar_experimentos_rendimiento cs env).map
      (fun l => l.map (fun r => r.configuracion)) = .ok cs := by
  induction cs generalizing env with
  | nil => rfl
  | cons c cs ih =>
    have h0 := h2 0 (by simp)
    rw [List.getD_cons_zero] at h0
    cases hres : ejecutar_experimento_rendimiento c (env 0) with
    | error e =>
      rw [hres] at h0
      exact absurd h0 (by simp [Except.isOk, Except.toBool])
    | ok r =>
      have hcfg := ejecutar_rendimiento_configuracion c (env 0) r hres
      have hrest := ih (fun i => env (i + 1)) (fun i hi => by
        have hstep := h2 (i + 1) (Nat.succ_lt_succ hi)
        rwa [List.getD_cons_succ] at hstep)
      cases hrest2 : iniciar_experimentos_rendimiento cs (fun i => env (i + 1)) with
      | error e =>
        rw [hrest2] at hrest
        exact absurd hrest (by simp [Except.map])
      | ok rs =>
        rw [hrest2] at hrest
        simp only [Except.map] at hrest
        injection hrest with hrest
        simp only [iniciar_experimentos_rendimiento]
        rw [hres]
        simp only []
        rw [hrest2]
        simp only [Except.map, List.map_cons]
        rw [hrest, hcfg]

theorem tasa_error_codigo_eq_spec (p f : Nat) :
    (if 0 < p + f then ((f : ℚ) / ((p + f : Nat) : ℚ)) * 100 else 0) =
      tasa_error_segun_spec p f := by
  rw [tasa_error_segun_spec]
  by_cases h : p + f = 0
  · simp [h]
  · rw [if_pos (Nat.pos_of_ne_zero h), if_pos h]
    push_cast
    ring

theorem tasa_error_segun_spec_cotas (p f : Nat) :
    0 ≤ tasa_error_segun_spec p f ∧ tasa_error_segun_spec p f ≤ 100 := by
  rw [tasa_error_segun_spec]
  by_cases h : p + f = 0
  · simp [h]
  · rw [if_pos h]
    have hpos : (0 : ℚ) < (p : ℚ) + (f : ℚ) := by
      exact_mod_cast Nat.pos_of_ne_zero h
    have hle : (f : ℚ) ≤ (p : ℚ) + (f : ℚ) := by
      have hp : (0 : ℚ) ≤ (p : ℚ) := Nat.cast_nonneg p
      linarith
    have hdiv := (div_le_one hpos).mpr hle
    constructor
    · positivity
    · calc ((f : ℚ) / ((p : ℚ) + (f : ℚ))) * 100 ≤ 1 * 100 :=
            mul_le_mul_of_nonneg_right hdiv (by norm_num)
        _ = 100 := by norm_num

/-! ### Claims -/

/-- C1 (counterexample): the configuration (5, 50, 0) has a non-positive
`durationMinutes`, yet the runner does not reject it: the run signals no
error at all and the resource sampler, the query workers and the vote
worker are all started, refuting the claim that such configurations are
rejected as a fatal error before any worker task is started. -/
theorem C1_contraejemplo :
    (⟨5, 50, 0⟩ : Configuracion).duracion_minutos = 0 ∧
    (ejecutar_experimento_eventos ⟨5, 50, 0⟩).2 = none ∧
    Evento.inicia_monitoreo ∈ (ejecutar_experimento_eventos ⟨5, 50, 0⟩).1 ∧
    Evento.inicia_consulta 0 ∈ (ejecutar_experimento_eventos ⟨5, 50, 0⟩).1 ∧
    Evento.inicia_votos ∈ (ejecutar_experimento_eventos ⟨5, 50, 0⟩).1 := by
  decide

/-- C1 (amended): the runner performs no configuration validation.  With a
nonzero vote rate the run signals no error regardless of duration or
concurrency; with `votesPerMinute = 0` it fails with a `ZeroDivisionError`,
but only after the resource sampler and every query worker have already
been started (the vote worker is then never started). -/
theorem C1_sin_validacion (c : Configuracion) :
    (c.votos_por_minuto ≠ 0 → (ejecutar_experimento_eventos c).2 = none) ∧
    (c.votos_por_minuto = 0 →
      (ejecutar_experimento_eventos c).2 =
          some "ZeroDivisionError: float division by zero" ∧
      Evento.inicia_monitoreo ∈ (ejecutar_experimento_eventos c).1 ∧
      (∀ i, i < c.consultas_concurrentes →
        Evento.inicia_consulta i ∈ (ejecutar_experimento_eventos c).1) ∧
      Evento.inicia_votos ∉ (ejecutar_experimento_eventos c).1) := by
  constructor
  · intro hv
    simp only [ejecutar_experimento_eventos, if_neg hv]
  · intro hv
    refine ⟨?_, ?_, ?_, ?_⟩
    · simp only [ejecutar_experimento_eventos, if_pos hv]
    · simp only [ejecutar_experimento_eventos, if_pos hv]
      exact List.mem_cons_self _ _
    · intro i hi
      simp only [ejecutar_experimento_eventos, if_pos hv]
      exact List.mem_cons_of_mem _ (List.mem_map_of_mem _ (List.mem_range.mpr hi))
    · intro hmem
      simp only [ejecutar_experimento_eventos, if_pos hv] at hmem
      simp at hmem

/-- C1 witness: the amended statement evaluated at the configuration
(2, 0, 1). -/
theorem C1_sin_validacion_testigo :
    (ejecutar_experimento_eventos ⟨2, 0, 1⟩).2 =
        some "ZeroDivisionError: float division by zero" ∧
    Evento.inicia_monitoreo ∈ (ejecutar_experimento_eventos ⟨2, 0, 1⟩).1 ∧
    Evento.inicia_consulta 1 ∈ (ejecutar_experimento_eventos ⟨2, 0, 1⟩).1 ∧
    Evento.inicia_votos ∉ (ejecutar_experimento_eventos ⟨2, 0, 1⟩).1 := by
  obtain ⟨-, h⟩ := C1_sin_validacion ⟨2, 0, 1⟩
  obtain ⟨h1, h2, h3, h4⟩ := h rfl
  exact ⟨h1, h2, h3 1 (by decide), h4⟩

/-- C2 (counterexample): in the standard harness the throughput division is
not guarded, so finalizing a run whose measured duration is 0 raises
`ZeroDivisionError` instead of yielding 0 — the claim that finalization
never divides by zero fails there. -/
theorem C2_contraejemplo :
    calcular_metricas_finales_rendimiento (metricas_iniciales ⟨10, 100, 5⟩) 0 =
      .error "ZeroDivisionError: float division by zero" := rfl

/-- C2 (amended): only the fast harness guards the throughput division
(`votesProcessed / (durationActualSeconds / 60)` when the measured duration
is positive, otherwise 0).  The standard harness divides unconditionally:
a zero measured duration raises `ZeroDivisionError`, and otherwise the
quotient is produced unguarded. -/
theorem C2_throughput (m : Metricas) (d : ℚ) (hl : m.latencias.length ≠ 1) :
    (calcular_metricas_finales_rapido m d).map (fun r => r.throughput) =
      .ok (some (if 0 < d then (m.votos_procesados : ℚ) / (d / 60) else 0)) ∧
    (d = 0 → calcular_metricas_finales_rendimiento m d =
      .error "ZeroDivisionError: float division by zero") ∧
    (d ≠ 0 → (calcular_metricas_finales_rendimiento m d).map (fun r => r.throughput) =
      .ok (some ((m.votos_procesados : ℚ) / (d / 60)))) := by
  refine ⟨?_, ?_, ?_⟩
  · obtain ⟨r, hr, -, -, -, hth, -⟩ := calcular_rapido_ok m d
    rw [hr]
    simp [Except.map, hth]
  · intro hd0
    subst hd0
    obtain ⟨cfg, lats, vp, vf, cpu, mem, errs, lp, l95, lmax, dr, th, te⟩ := m
    cases lats with
    | nil => rfl
    | cons x xs =>
      have h2 : 2 ≤ (x :: xs).length := by
        simp only [List.length_cons] at hl ⊢
        omega
      obtain ⟨qs, hqs, hqslen⟩ := statistics_quantiles_ok (x :: xs) h2
      have hsome : qs.get? 18 ≠ none := by
        intro hno
        rw [List.get?_eq_none] at hno
        omega
      obtain ⟨p95, hp95⟩ := Option.ne_none_iff_exists'.mp hsome
      simp only [calcular_metricas_finales_rendimiento]
      rw [hqs]
      simp only []
      rw [hp95]
      simp [finalizar_resto_rendimiento]
  · intro hd
    obtain ⟨r, hr, -, -, -, hth, -⟩ := calcular_rendimiento_ok m d hd hl
    rw [hr]
    simp [Except.map, hth]

/-- C2 witness: the amended statement evaluated at a record with two
processed votes and measured duration 30 s. -/
theorem C2_throughput_testigo :
    (calcular_metricas_finales_rapido metricas_testigo 30).map (fun r => r.throughput) =
      .ok (some (if 0 < (30 : ℚ) then (metricas_testigo.votos_procesados : ℚ) / (30 / 60)
        else 0)) ∧
    (calcular_metricas_finales_rendimiento metricas_testigo 30).map (fun r => r.throughput) =
      .ok (some ((metricas_testigo.votos_procesados : ℚ) / (30 / 60))) := by
  have h := C2_throughput metricas_testigo 30 (by decide)
  exact ⟨h.1, h.2.2 (by norm_num)⟩

/-- C3 (counterexample): two runs of the monitor with different CPU sample
traces of equal mean produce identical records, so the record handed to
the caller cannot contain the sample sequences — refuting the claim that
the samples are appended to `record.cpuSamples` / `record.memorySamples`
and kept as fields of the finalized record. -/
theorem C3_contraejemplo :
    monitorear_recursos (metricas_iniciales ⟨5, 50, 1⟩)
        [Muestra.ok 10 5, Muestra.ok 50 5] =
      monitorear_recursos (metricas_iniciales ⟨5, 50, 1⟩)
        [Muestra.ok 20 5, Muestra.ok 40 5] ∧
    muestras_cpu [Muestra.ok 10 5, Muestra.ok 50 5] ≠
      muestras_cpu [Muestra.ok 20 5, Muestra.ok 40 5] := by
  constructor
  · simp [monitorear_recursos, muestras_cpu, muestras_memoria, errores_monitoreo,
      statistics_mean, metricas_iniciales]
    norm_num
  · decide

/-- C3 (amended): the sampler accumulates its CPU and memory samples in
local lists and stores only their arithmetic means on the record
(`uso_cpu_promedio` / `uso_memoria_promedio`, left at their initial value
when no sample was collected) plus one error entry per failed tick; the
sample sequences themselves are not fields of the record, and the record's
other fields are untouched. -/
theorem C3_muestras_solo_promedio (m : Metricas) (ms : List Muestra) :
    (monitorear_recursos m ms).latencias = m.latencias ∧
    (monitorear_recursos m ms).votos_procesados = m.votos_procesados ∧
    (monitorear_recursos m ms).votos_fallidos = m.votos_fallidos ∧
    (monitorear_recursos m ms).errores = m.errores ++ errores_monitoreo ms ∧
    (monitorear_recursos m ms).uso_cpu_promedio =
      (if muestras_cpu ms = [] then m.uso_cpu_promedio
       else statistics_mean (muestras_cpu ms)) ∧
    (monitorear_recursos m ms).uso_memoria_promedio =
      (if muestras_memoria ms = [] then m.uso_memoria_promedio
       else statistics_mean (muestras_memoria ms)) := by
  have h := monitorear_recursos_campos m ms
  exact ⟨h.2.1, h.2.2.1, h.2.2.2.1, h.2.2.2.2.1, h.2.2.2.2.2.1, h.2.2.2.2.2.2⟩

/-- C4 (counterexample): a completed standard-harness run with no
accumulated latencies leaves `latencia_promedio`, `latencia_p95` and
`latencia_max` absent from the record (`none`), not defined and equal to
zero as the claim states. -/
theorem C4_contraejemplo :
    (calcular_metricas_finales_rendimiento (metricas_iniciales ⟨10, 100, 5⟩) 300).map
        (fun r => (r.latencia_promedio, r.latencia_p95, r.latencia_max)) =
      .ok ((none : Option ℚ), (none : Option ℚ), (none : Option ℚ)) ∧
    (none : Option ℚ) ≠ some 0 := ⟨rfl, by decide⟩

/-- C4 (amended): with an empty latency sequence the fast harness sets the
three derived latency fields to 0 via its `else` branch, while the standard
harness, which has no `else` branch, leaves the three fields exactly as
they were — absent on a record that started from the initial dict. -/
theorem C4_latencias_vacias (m : Metricas) (d : ℚ) (h : m.latencias = []) :
    (calcular_metricas_finales_rapido m d).map
        (fun r => (r.latencia_promedio, r.latencia_p95, r.latencia_max)) =
      .ok (some 0, some 0, some 0) ∧
    (d ≠ 0 → (calcular_metricas_finales_rendimiento m d).map
        (fun r => (r.latencia_promedio, r.latencia_p95, r.latencia_max)) =
      .ok (m.latencia_promedio, m.latencia_p95, m.latencia_max)) := by
  constructor
  · obtain ⟨r, hr, -, -, -, -, -, hemp, -⟩ := calcular_rapido_ok m d
    obtain ⟨h1, h2, h3⟩ := hemp h
    rw [hr]
    simp [Except.map, h1, h2, h3]
  · intro hd
    obtain ⟨r, hr, -, -, -, -, -, hemp⟩ :=
      calcular_rendimiento_ok m d hd (by rw [h]; simp)
    obtain ⟨h1, h2, h3⟩ := hemp h
    rw [hr]
    simp [Except.map, h1, h2, h3]

/-- C4 witness: the amended statement evaluated on the initial record with
measured duration 60 s. -/
theorem C4_latencias_vacias_testigo :
    (calcular_metricas_finales_rapido (metricas_iniciales ⟨5, 50, 1⟩) 60).map
        (fun r => (r.latencia_promedio, r.latencia_p95, r.latencia_max)) =
      .ok (some 0, some 0, some 0) ∧
    (calcular_metricas_finales_rendimiento (metricas_iniciales ⟨5, 50, 1⟩) 60).map
        (fun r => (r.latencia_promedio, r.latencia_p95, r.latencia_max)) =
      .ok ((metricas_iniciales ⟨5, 50, 1⟩).latencia_promedio,
        (metricas_iniciales ⟨5, 50, 1⟩).latencia_p95,
        (metricas_iniciales ⟨5, 50, 1⟩).latencia_max) := by
  have h := C4_latencias_vacias (metricas_iniciales ⟨5, 50, 1⟩) 60 rfl
  exact ⟨h.1, h.2 (by norm_num)⟩

/-- C5 (counterexample): with a single configuration the suite performs one
cooldown pause — placed after the final (and only) run — whereas the claim
demands k - 1 = 0 pauses and none after the final run. -/
theorem C5_contraejemplo :
    iniciar_experimentos_eventos 10 [⟨5, 50, 1⟩] =
      [EventoSuite.ejecutar ⟨5, 50, 1⟩, EventoSuite.espera 10] ∧
    (iniciar_experimentos_eventos 10 [⟨5, 50, 1⟩]).countP EventoSuite.es_espera = 1 := by
  constructor
  · rfl
  · rfl

/-- C5 (amended): the suite runs the configurations strictly in input
order, but the cooldown (10 s fast harness, 30 s standard harness, the
parameter here) elapses after every run including the final one, giving k
cooldown pauses for k configurations, each immediately after its run. -/
theorem C5_espera_tras_cada_ejecucion (k : Nat) (cs : List Configuracion) :
    iniciar_experimentos_eventos k cs =
      cs.flatMap (fun c => [EventoSuite.ejecutar c, EventoSuite.espera k]) ∧
    (iniciar_experimentos_eventos k cs).countP EventoSuite.es_espera = cs.length ∧
    (iniciar_experimentos_eventos k cs).filterMap EventoSuite.configuracion_de = cs := by
  have he : iniciar_experimentos_eventos k cs =
      cs.flatMap (fun c => [EventoSuite.ejecutar c, EventoSuite.espera k]) := by
    rw [iniciar_experimentos_eventos, iniciar_experimentos_eventos_flatMap]
    rfl
  refine ⟨he, ?_, ?_⟩
  · rw [he, eventos_espera_cuenta]
  · rw [he, eventos_ejecuciones]

/-- C6: fast-harness P95 policy: for every non-empty accumulated latency
sequence of length n, finalization succeeds and `latencia_p95` is exactly
the element at index ⌊0.95·n⌋ (= 19n/20 in integer division) of the
sequence sorted ascending, and that index is always in range. -/
theorem C6_p95_politica_indice (m : Metricas) (d : ℚ) (h : m.latencias ≠ []) :
    19 * m.latencias.length / 20 < m.latencias.length ∧
    (calcular_metricas_finales_rapido m d).map (fun r => r.latencia_p95) =
      .ok ((List.insertionSort (fun a b => a ≤ b) m.latencias).get?
        (19 * m.latencias.length / 20)) := by
  constructor
  · have h0 : 0 < m.latencias.length := List.length_pos.mpr h
    rw [Nat.div_lt_iff_lt_mul (by norm_num)]
    omega
  · obtain ⟨r, hr, -, -, -, -, -, -, hne⟩ := calcular_rapido_ok m d
    rw [hr]
    simp only [Except.map]
    rw [hne h]

/-- C6 witness: the policy evaluated on the record with latencies
[3, 1, 2]. -/
theorem C6_p95_politica_indice_testigo :
    19 * metricas_latencias_testigo.latencias.length / 20 <
      metricas_latencias_testigo.latencias.length ∧
    (calcular_metricas_finales_rapido metricas_latencias_testigo 60).map
        (fun r => r.latencia_p95) =
      .ok ((List.insertionSort (fun a b => a ≤ b)
          metricas_latencias_testigo.latencias).get?
        (19 * metricas_latencias_testigo.latencias.length / 20)) :=
  C6_p95_politica_indice metricas_latencias_testigo 60 (by decide)

/-- C7: in both harnesses the finalized `tasa_error` equals the spec's
error-rate formula — `votesFailed / (votesProcessed + votesFailed) * 100`
when the denominator is nonzero and 0 when both counters are zero — and
that value always lies in [0, 100]. -/
theorem C7_tasa_error (m : Metricas) (d : ℚ) (hd : d ≠ 0)
    (hl : m.latencias.length ≠ 1) :
    (calcular_metricas_finales_rapido m d).map (fun r => r.tasa_error) =
      .ok (some (tasa_error_segun_spec m.votos_procesados m.votos_fallidos)) ∧
    (calcular_metricas_finales_rendimiento m d).map (fun r => r.tasa_error) =
      .ok (some (tasa_error_segun_spec m.votos_procesados m.votos_fallidos)) ∧
    0 ≤ tasa_error_segun_spec m.votos_procesados m.votos_fallidos ∧
    tasa_error_segun_spec m.votos_procesados m.votos_fallidos ≤ 100 := by
  obtain ⟨r1, hr1, -, -, -, -, hte1, -⟩ := calcular_rapido_ok m d
  obtain ⟨r2, hr2, -, -, -, -, hte2, -⟩ := calcular_rendimiento_ok m d hd hl
  refine ⟨?_, ?_, (tasa_error_segun_spec_cotas _ _).1, (tasa_error_segun_spec_cotas _ _).2⟩
  · rw [hr1]
    simp only [Except.map]
    rw [hte1, tasa_error_codigo_eq_spec]
  · rw [hr2]
    simp only [Except.map]
    rw [hte2, tasa_error_codigo_eq_spec]

/-- C7 witness: the statement evaluated on the record with two processed
and one failed vote, measured duration 30 s. -/
theorem C7_tasa_error_testigo :
    (calcular_metricas_finales_rapido metricas_testigo 30).map (fun r => r.tasa_error) =
      .ok (some (tasa_error_segun_spec metricas_testigo.votos_procesados
        metricas_testigo.votos_fallidos)) ∧
    (calcular_metricas_finales_rendimiento metricas_testigo 30).map
        (fun r => r.tasa_error) =
      .ok (some (tasa_error_segun_spec metricas_testigo.votos_procesados
        metricas_testigo.votos_fallidos)) ∧
    0 ≤ tasa_error_segun_spec metricas_testigo.votos_procesados
      metricas_testigo.votos_fallidos ∧
    tasa_error_segun_spec metricas_testigo.votos_procesados
      metricas_testigo.votos_fallidos ≤ 100 :=
  C7_tasa_error metricas_testigo 30 (by norm_num) (by decide)

/-- C8: every vote-worker iteration that does not raise increments exactly
one of the two counters by one (the success counter exactly when the
failure counter is unchanged), appends the measured latency to the shared
latency list exactly on success, and then executes the pacing sleep of
`intervalo_votos = 60 / votos_por_minuto` seconds. -/
theorem C8_iteracion_voto (m : Metricas) (c : Configuracion) (r : ResultadoVoto)
    (hr : r.es_excepcion = false) :
    (simular_votos_paso m r).votos_procesados + (simular_votos_paso m r).votos_fallidos =
      m.votos_procesados + m.votos_fallidos + 1 ∧
    ((simular_votos_paso m r).votos_procesados = m.votos_procesados + 1 ↔
      (simular_votos_paso m r).votos_fallidos = m.votos_fallidos) ∧
    (r.es_exito = true →
      (simular_votos_paso m r).latencias = m.latencias ++ [r.latencia_medida]) ∧
    (r.es_exito = false → (simular_votos_paso m r).latencias = m.latencias) ∧
    simular_votos_paso_pausas (intervalo_votos c) r = [60 / (c.votos_por_minuto : ℚ)] := by
  cases r with
  | exito lat =>
    refine ⟨by simp only [simular_votos_paso]; omega, ?_, ?_, ?_, rfl⟩
    · simp [simular_votos_paso]
    · intro _
      simp [simular_votos_paso, ResultadoVoto.latencia_medida]
    · intro hfalso
      exact absurd hfalso (by simp [ResultadoVoto.es_exito])
  | fallo lat =>
    refine ⟨by simp only [simular_votos_paso]; omega, ?_, ?_, ?_, rfl⟩
    · simp [simular_votos_paso]
    · intro hfalso
      exact absurd hfalso (by simp [ResultadoVoto.es_exito])
    · intro _
      simp [simular_votos_paso]
  | excepcion e =>
    exact absurd hr (by simp [ResultadoVoto.es_excepcion])

/-- C8 witness: the statement evaluated at a successful vote with 25 ms
latency under the configuration (5, 50, 1). -/
theorem C8_iteracion_voto_testigo :
    (simular_votos_paso metricas_testigo (ResultadoVoto.exito 25)).votos_procesados +
        (simular_votos_paso metricas_testigo (ResultadoVoto.exito 25)).votos_fallidos =
      metricas_testigo.votos_procesados + metricas_testigo.votos_fallidos + 1 ∧
    ((simular_votos_paso metricas_testigo (ResultadoVoto.exito 25)).votos_procesados =
        metricas_testigo.votos_procesados + 1 ↔
      (simular_votos_paso metricas_testigo (ResultadoVoto.exito 25)).votos_fallidos =
        metricas_testigo.votos_fallidos) ∧
    ((ResultadoVoto.exito 25).es_exito = true →
      (simular_votos_paso metricas_testigo (ResultadoVoto.exito 25)).latencias =
        metricas_testigo.latencias ++ [(ResultadoVoto.exito 25).latencia_medida]) ∧
    ((ResultadoVoto.exito 25).es_exito = false →
      (simular_votos_paso metricas_testigo (ResultadoVoto.exito 25)).latencias =
        metricas_testigo.latencias) ∧
    simular_votos_paso_pausas (intervalo_votos ⟨5, 50, 1⟩) (ResultadoVoto.exito 25) =
      [60 / ((⟨5, 50, 1⟩ : Configuracion).votos_por_minuto : ℚ)] :=
  C8_iteracion_voto metricas_testigo ⟨5, 50, 1⟩ (ResultadoVoto.exito 25) (by decide)

/-- C9: the suite runs every configuration exactly once, appending the
finalized records in input order: for valid configurations (nonzero vote
rate; in the standard harness, run environments under which each
finalization succeeds), the produced result list carries one record per
configuration whose embedded configuration sequence equals the input
sequence. -/
theorem C9_un_registro_por_configuracion (cs : List Configuracion)
    (env env2 : Nat → Entorno)
    (h1 : ∀ c ∈ cs, c.votos_por_minuto ≠ 0)
    (h2 : ∀ i, i < cs.length →
      (ejecutar_experimento_rendimiento (cs.getD i ⟨0, 0, 0⟩) (env2 i)).isOk = true) :
    (iniciar_experimentos_rapido cs env).map
      (fun l => l.map (fun r => r.configuracion)) = .ok cs ∧
    (iniciar_experimentos_rendimiento cs env2).map
      (fun l => l.map (fun r => r.configuracion)) = .ok cs :=
  ⟨iniciar_rapido_configs cs env h1, iniciar_rendimiento_configs cs env2 h2⟩

/-- C9 witness: the statement evaluated on two configurations with the
concrete witness environment (length 3 would work the same way). -/
theorem C9_un_registro_por_configuracion_testigo :
    (iniciar_experimentos_rapido [⟨5, 50, 1⟩, ⟨10, 100, 1⟩] (fun _ => entorno_testigo)).map
      (fun l => l.map (fun r => r.configuracion)) = .ok [⟨5, 50, 1⟩, ⟨10, 100, 1⟩] ∧
    (iniciar_experimentos_rendimiento [⟨5, 50, 1⟩, ⟨10, 100, 1⟩]
        (fun _ => entorno_testigo)).map
      (fun l => l.map (fun r => r.configuracion)) = .ok [⟨5, 50, 1⟩, ⟨10, 100, 1⟩] := by
  refine C9_un_registro_por_configuracion [⟨5, 50, 1⟩, ⟨10, 100, 1⟩]
    (fun _ => entorno_testigo) (fun _ => entorno_testigo) (by decide) ?_
  intro i hi
  simp only [List.length_cons, List.length_nil] at hi
  interval_cases i
  · decide
  · decide

/-- C10 (counterexample): finalizing a standard-harness run whose
accumulated latency sequence holds exactly one element raises
`StatisticsError` from `statistics.quantiles(..., n=20)`, so finalization
is not total. -/
theorem C10_contraejemplo :
    calcular_metricas_finales_rendimiento
        { metricas_iniciales ⟨10, 100, 5⟩ with latencias := [30] } 300 =
      .error "StatisticsError: must have at least two data points" := rfl

/-- C10 (amended): standard-harness finalization is total except at latency
count exactly one: with one accumulated latency it raises
`StatisticsError`, and for any other latency count (and a nonzero measured
duration) it returns a record. -/
theorem C10_singleton_lanza (m : Metricas) (d : ℚ) (hd : d ≠ 0) :
    (m.latencias.length = 1 →
      calcular_metricas_finales_rendimiento m d =
        .error "StatisticsError: must have at least two data points") ∧
    (m.latencias.length ≠ 1 →
      (calcular_metricas_finales_rendimiento m d).isOk = true) := by
  constructor
  · intro h1
    obtain ⟨cfg, lats, vp, vf, cpu, mem, errs, lp, l95, lmax, dr, th, te⟩ := m
    match lats, h1 with
    | [x], _ => rfl
  · intro h1
    obtain ⟨r, hr, -⟩ := calcular_rendimiento_ok m d hd h1
    rw [hr]
    rfl

/-- C10 witness: a two-latency record finalizes without raising, and the
first branch is exercised by the length-one hypothesis shape at `[30]`. -/
theorem C10_singleton_lanza_testigo :
    (calcular_metricas_finales_rendimiento
        { metricas_iniciales ⟨10, 100, 5⟩ with latencias := [30, 45] } 300).isOk = true :=
  (C10_singleton_lanza { metricas_iniciales ⟨10, 100, 5⟩ with latencias := [30, 45] } 300
    (by norm_num)).2 (by decide)
